import Mathlib

/-!
Shallow embedding of the simulated-user behavior engine of the
`jacokyle01/load-testing` repository (Locust task sets in
`load-testing/locust/locustfile.py` and `user_flow/locustfile.py`).

HTTP responses are modelled as a status code plus an optional parsed JSON
body (`none` models a body on which `response.json()` raises).  Each
Behavior Step of the source is a total Lean function from the response
environment and the current per-user session state to a `StepResult`:
the request it issues (if any), the recorded outcome
(success / failure / skipped), and the updated session state.  Python
exceptions inside the `try`/`except` parsing blocks of the source are
modelled with `Except`.
-/

namespace LoadTest

/-- Parsed JSON values, as Python objects returned by `response.json()`.
`null` models Python `None`. -/
inductive Json where
  | null : Json
  | str : String → Json
  | num : Int → Json
  | arr : List Json → Json
  | obj : List (String × Json) → Json
deriving Repr

/-- Python attribute access `.get` / subscripting is only available on dicts;
`asObj` returns the field list when the value is a dict. -/
def Json.asObj : Json → Option (List (String × Json))
  | .obj fs => some fs
  | _ => none

/-- Python truthiness of a parsed JSON value (`if articles:` in the source):
`None`, `""`, `0`, `[]`, and the empty dict are falsy. -/
def jsonTruthy : Json → Bool
  | .null => false
  | .str s => !s.isEmpty
  | .num n => n != 0
  | .arr xs => !xs.isEmpty
  | .obj fs => !fs.isEmpty

/-- Python `str()` rendering as used by the source's f-string interpolation
(`f"/api/articles/\x7bslug\x7d"`).  The claims only ever evaluate the `null`
and `str` cases (`str(None) = "None"`); container reprs are abbreviated. -/
def pyStr : Json → String
  | .null => "None"
  | .str s => s
  | .num n => toString n
  | .arr _ => "<list>"
  | .obj _ => "<dict>"

/-- An HTTP response as seen by a Behavior Step: status code and the parsed
JSON body; `body = none` models a body on which `response.json()` raises. -/
structure Response where
  status : Nat
  body : Option Json
deriving Repr

/-- A request issued by a Behavior Step (method and path; query parameters,
headers and JSON payloads do not matter to the claims). -/
structure Request where
  method : String
  path : String
deriving Repr, DecidableEq

/-- Outcome recorded for one execution of a Behavior Step:
`success` models `response.success()`, `failure r` models
`response.failure(r)`, and `skipped` models an early `return` before any
request is issued (precondition miss). -/
inductive StepOutcome where
  | success : StepOutcome
  | failure : String → StepOutcome
  | skipped : StepOutcome
deriving Repr, DecidableEq

def StepOutcome.isSuccess : StepOutcome → Bool
  | .success => true
  | _ => false

def StepOutcome.isFailure : StepOutcome → Bool
  | .failure _ => true
  | _ => false

def StepOutcome.isSkipped : StepOutcome → Bool
  | .skipped => true
  | _ => false

/-- Number of outcome kinds recorded by one step execution (used to state
that exactly one of success / failure / skipped is recorded). -/
def outcomeMarks (o : StepOutcome) : Nat :=
  (cond o.isSuccess 1 0) + (cond o.isFailure 1 0) + (cond o.isSkipped 1 0)

/-- Result of one execution of a Behavior Step: the request issued
(`none` when the step short-circuits), the recorded outcome, and the
updated session state. -/
structure StepResult (σ : Type) where
  request : Option Request
  outcome : StepOutcome
  state : σ
deriving Repr

/-- Python `if not self.token:` on a token attribute (a parsed JSON value or
`None`): falsy when the attribute is `None` or a falsy value. -/
def tokenFalsy : Option Json → Bool
  | none => true
  | some t => !jsonTruthy t

/-- Slug resolution `getattr(self.user, 'article_slug', 'sample-article')`:
the attribute's value rendered by `str` when present, else the placeholder. -/
def slugOrSample : Option Json → String
  | some v => pyStr v
  | none => "sample-article"

/-- `data['user']['token']` on a parsed body, as `Option`: `none` models the
exception path (invalid JSON, non-dict, or missing key), which the source
catches with a bare `except`. -/
def loginParseToken (body : Option Json) : Option Json :=
  match body with
  | none => none
  | some data =>
    match data.asObj with
    | none => none
    | some fs =>
      match fs.lookup "user" with
      | none => none
      | some u =>
        match u.asObj with
        | none => none
        | some ufs => ufs.lookup "token"

/-- Parsing step of `browse_articles` / `view_feed` bodies:
`data = response.json(); articles = data.get('articles', []);
if articles: slug = random.choice(articles).get('slug')`.
`pick` models the index drawn by `random.choice`.  Returns the slug value to
store (`ok (some v)`), `ok none` when no assignment happens (falsy
`articles`), or the caught exception (`error`). -/
def browseParse (body : Option Json) (pick : Nat) : Except String (Option Json) :=
  match body with
  | none => .error "invalid json body"
  | some data =>
    match data.asObj with
    | none => .error "no attribute get"
    | some fs =>
      let articles := (fs.lookup "articles").getD (Json.arr [])
      if jsonTruthy articles then
        match articles with
        | .arr xs =>
          match xs.get? (pick % xs.length) with
          | some chosen =>
            match chosen.asObj with
            | some afs => .ok (some ((afs.lookup "slug").getD Json.null))
            | none => .error "chosen element has no attribute get"
          | none => .error "empty sequence"
        | _ => .error "not a sequence"
      else .ok none

/-- Parsing step of `create_article`: `data['article']['slug']`, with the
exception path (caught by the source) as `error`. -/
def createParse (body : Option Json) : Except String Json :=
  match body with
  | none => .error "invalid json body"
  | some data =>
    match data.asObj with
    | none => .error "not subscriptable"
    | some fs =>
      match fs.lookup "article" with
      | none => .error "KeyError article"
      | some a =>
        match a.asObj with
        | none => .error "not subscriptable"
        | some afs =>
          match afs.lookup "slug" with
          | none => .error "KeyError slug"
          | some v => .ok v

namespace AnonymousReaderBehavior

/-- Session state of an anonymous reader: the `article_slug` attribute on the
user object.  `none` models the attribute being absent (so `hasattr` is
false); `some v` models the attribute set to the Python value `v`
(`some Json.null` models it set to `None`). -/
structure AnonState where
  article_slug : Option Json
deriving Repr

/-- `on_start`: `self.user.article_slug = None`. -/
def on_start (_s : AnonState) : AnonState :=
  { article_slug := some Json.null }

/-- `view_tags` (weight 3): GET `/api/tags`; 200 is success, anything else
failure. -/
def view_tags (resp : Response) (s : AnonState) : StepResult AnonState :=
  { request := some { method := "GET", path := "/api/tags" }
    outcome :=
      if resp.status = 200 then .success
      else .failure ("Got status code " ++ toString resp.status)
    state := s }

/-- `browse_articles` (weight 6): GET `/api/articles`; on 200 parse the body
and, when the article list is nonempty, store a randomly chosen slug in
`self.user.article_slug`; a caught parse exception is a failure with no
state change. -/
def browse_articles (resp : Response) (pick : Nat) (s : AnonState) :
    StepResult AnonState :=
  { request := some { method := "GET", path := "/api/articles" }
    outcome :=
      if resp.status = 200 then
        match browseParse resp.body pick with
        | .ok _ => .success
        | .error e => .failure ("Failed to parse response: " ++ e)
      else .failure ("Got status code " ++ toString resp.status)
    state :=
      if resp.status = 200 then
        match browseParse resp.body pick with
        | .ok (some v) => { article_slug := some v }
        | _ => s
      else s }

/-- The slug used by `read_article`: `self.user.article_slug` when the
attribute exists (`hasattr`), else the `"sample-article"` fallback. -/
def read_slug (s : AnonState) : String :=
  match s.article_slug with
  | some v => pyStr v
  | none => "sample-article"

/-- `read_article` (weight 2): GET `/api/articles/<slug>`; 200 and 404 are
success, anything else failure. -/
def read_article (resp : Response) (s : AnonState) : StepResult AnonState :=
  { request := some { method := "GET", path := "/api/articles/" ++ read_slug s }
    outcome :=
      if resp.status = 200 then .success
      else if resp.status = 404 then .success
      else .failure ("Got status code " ++ toString resp.status)
    state := s }

end AnonymousReaderBehavior

namespace AuthenticatedReaderBehavior

/-- Session state of an authenticated reader: `self.token` and
`self.username` (set together by `login`), and the `article_slug` attribute
on the user object (absent until `view_feed` stores one; the reader's
`on_start` does not pre-set it). -/
structure AuthState where
  token : Option Json
  username : Option String
  article_slug : Option Json
deriving Repr

/-- `login`: try to register; on a 200/201 whose body parses to
`data['user']['token']`, store the token and username and return.
Otherwise POST `/api/users/login`; on 200 store the parsed token (or set
the token to `None` when parsing raises); on any other status set the token
to `None`.  Returns the resulting `(token, username)` pair. -/
def login (registerResp loginResp : Response) (username : String) :
    Option Json × Option String :=
  if (registerResp.status = 200 ∨ registerResp.status = 201)
      ∧ (loginParseToken registerResp.body).isSome then
    (loginParseToken registerResp.body, some username)
  else if loginResp.status = 200 then
    match loginParseToken loginResp.body with
    | some t => (some t, some username)
    | none => (none, none)
  else (none, none)

/-- `view_feed` (weight 5): skipped when the token is falsy; GET
`/api/articles/feed`; on 200 parse and store a random feed slug on the user
object; parse exceptions are failures with no state change. -/
def view_feed (resp : Response) (pick : Nat) (s : AuthState) :
    StepResult AuthState :=
  if tokenFalsy s.token then
    { request := none, outcome := .skipped, state := s }
  else
    { request := some { method := "GET", path := "/api/articles/feed" }
      outcome :=
        if resp.status = 200 then
          match browseParse resp.body pick with
          | .ok _ => .success
          | .error _ => .failure "Failed to parse feed"
        else .failure ("Got status code " ++ toString resp.status)
      state :=
        if resp.status = 200 then
          match browseParse resp.body pick with
          | .ok (some v) => { s with article_slug := some v }
          | _ => s
        else s }

/-- `read_article` (weight 4): skipped when the token is falsy; GET
`/api/articles/<slug>` with slug
`getattr(self.user, 'article_slug', 'sample-article')`; 200 and 404 are
success, anything else failure. -/
def read_article (resp : Response) (s : AuthState) : StepResult AuthState :=
  if tokenFalsy s.token then
    { request := none, outcome := .skipped, state := s }
  else
    { request := some
        { method := "GET", path := "/api/articles/" ++ slugOrSample s.article_slug }
      outcome :=
        if resp.status = 200 ∨ resp.status = 404 then .success
        else .failure ("Got status code " ++ toString resp.status)
      state := s }

/-- `browse_all_articles` (weight 2): skipped when the token is falsy; GET
`/api/articles`; 200 success, else failure. -/
def browse_all_articles (resp : Response) (s : AuthState) :
    StepResult AuthState :=
  if tokenFalsy s.token then
    { request := none, outcome := .skipped, state := s }
  else
    { request := some { method := "GET", path := "/api/articles" }
      outcome :=
        if resp.status = 200 then .success
        else .failure ("Got status code " ++ toString resp.status)
      state := s }

/-- `view_profile` (weight 1): skipped when the token is falsy or the
`username` attribute is absent; GET `/api/profiles/<username>`; 200 success,
else failure. -/
def view_profile (resp : Response) (s : AuthState) : StepResult AuthState :=
  if tokenFalsy s.token || s.username.isNone then
    { request := none, outcome := .skipped, state := s }
  else
    { request := some
        { method := "GET", path := "/api/profiles/" ++ s.username.getD "" }
      outcome :=
        if resp.status = 200 then .success
        else .failure ("Got status code " ++ toString resp.status)
      state := s }

end AuthenticatedReaderBehavior

namespace ContentCreatorBehavior

/-- Session state of a content creator: `self.token` (always set by
`login`), the `article_slug` attribute (absent until `browse_feed` stores a
feed slug), and the `created_slug` attribute (absent until `create_article`
stores the created article's slug). -/
structure CreatorState where
  token : Option Json
  article_slug : Option Json
  created_slug : Option Json
deriving Repr

/-- `login`: register; on a 200/201 whose body parses to
`data['user']['token']`, store that token; on any other status, or when
parsing raises, set the token to `None` (no login fallback here). -/
def login (registerResp : Response) : Option Json :=
  if (registerResp.status = 200 ∨ registerResp.status = 201)
      ∧ (loginParseToken registerResp.body).isSome then
    loginParseToken registerResp.body
  else none

/-- Step 1 `browse_feed`: skipped when the token is falsy; GET
`/api/articles/feed`; on 200 parse and store a random feed slug in
`self.article_slug`; parse exceptions are failures with no state change. -/
def browse_feed (resp : Response) (pick : Nat) (s : CreatorState) :
    StepResult CreatorState :=
  if tokenFalsy s.token then
    { request := none, outcome := .skipped, state := s }
  else
    { request := some { method := "GET", path := "/api/articles/feed" }
      outcome :=
        if resp.status = 200 then
          match browseParse resp.body pick with
          | .ok _ => .success
          | .error _ => .failure "Failed to parse feed"
        else .failure ("Got status code " ++ toString resp.status)
      state :=
        if resp.status = 200 then
          match browseParse resp.body pick with
          | .ok (some v) => { s with article_slug := some v }
          | _ => s
        else s }

/-- Step 2 `create_article`: skipped when the token is falsy; POST
`/api/articles`; on 200/201 store `data['article']['slug']` in
`self.created_slug` (a caught parse exception is a failure with no state
change); any other status is a failure. -/
def create_article (resp : Response) (s : CreatorState) :
    StepResult CreatorState :=
  if tokenFalsy s.token then
    { request := none, outcome := .skipped, state := s }
  else
    { request := some { method := "POST", path := "/api/articles" }
      outcome :=
        if resp.status = 200 ∨ resp.status = 201 then
          match createParse resp.body with
          | .ok _ => .success
          | .error _ => .failure "Failed to parse created article"
        else .failure ("Got status code " ++ toString resp.status)
      state :=
        if resp.status = 200 ∨ resp.status = 201 then
          match createParse resp.body with
          | .ok v => { s with created_slug := some v }
          | .error _ => s
        else s }

/-- Step 3 `read_own_article`: skipped when the token is falsy or the
`created_slug` attribute is absent; GET `/api/articles/<created_slug>`;
only 200 is success — a 404 here is a failure. -/
def read_own_article (resp : Response) (s : CreatorState) :
    StepResult CreatorState :=
  if tokenFalsy s.token || s.created_slug.isNone then
    { request := none, outcome := .skipped, state := s }
  else
    { request := some
        { method := "GET"
          path := "/api/articles/" ++ pyStr (s.created_slug.getD Json.null) }
      outcome :=
        if resp.status = 200 then .success
        else .failure ("Got status code " ++ toString resp.status)
      state := s }

/-- Slug resolution of step 4:
`getattr(self, 'article_slug', getattr(self, 'created_slug', 'sample-article'))`
— the feed slug when present, else the created slug, else the placeholder. -/
def comment_slug (s : CreatorState) : String :=
  match s.article_slug with
  | some v => pyStr v
  | none =>
    match s.created_slug with
    | some v => pyStr v
    | none => "sample-article"

/-- Step 4 `add_comment`: skipped when the token is falsy; POST
`/api/articles/<slug>/comments`; 200, 201 and 404 are success, anything
else failure. -/
def add_comment (resp : Response) (s : CreatorState) :
    StepResult CreatorState :=
  if tokenFalsy s.token then
    { request := none, outcome := .skipped, state := s }
  else
    { request := some
        { method := "POST"
          path := "/api/articles/" ++ comment_slug s ++ "/comments" }
      outcome :=
        if resp.status = 200 ∨ resp.status = 201 then .success
        else if resp.status = 404 then .success
        else .failure ("Got status code " ++ toString resp.status)
      state := s }

/-- Response environment for one iteration of the sequential workflow:
one response (plus the feed's random index) per declared step. -/
structure IterEnv where
  feedResp : Response
  feedPick : Nat
  createResp : Response
  readResp : Response
  commentResp : Response

/-- Session state after step 1 of an iteration started in `s0`. -/
def afterStep1 (env : IterEnv) (s0 : CreatorState) : CreatorState :=
  (browse_feed env.feedResp env.feedPick s0).state

/-- Session state after step 2 of an iteration started in `s0`. -/
def afterStep2 (env : IterEnv) (s0 : CreatorState) : CreatorState :=
  (create_article env.createResp (afterStep1 env s0)).state

/-- Session state after step 3 of an iteration started in `s0`. -/
def afterStep3 (env : IterEnv) (s0 : CreatorState) : CreatorState :=
  (read_own_article env.readResp (afterStep2 env s0)).state

/-- One iteration of the `SequentialTaskSet`: the four steps run exactly
once each, in declared order, threading the session state; the trace pairs
each step's name with its result. -/
def runIteration (env : IterEnv) (s0 : CreatorState) :
    List (String × Option Request × StepOutcome) × CreatorState :=
  let r1 := browse_feed env.feedResp env.feedPick s0
  let r2 := create_article env.createResp r1.state
  let r3 := read_own_article env.readResp r2.state
  let r4 := add_comment env.commentResp r3.state
  ([("browse_feed", r1.request, r1.outcome),
    ("create_article", r2.request, r2.outcome),
    ("read_own_article", r3.request, r3.outcome),
    ("add_comment", r4.request, r4.outcome)], r4.state)

end ContentCreatorBehavior

namespace ConduitUser

/-- `on_start` of `user_flow/locustfile.py`: POST `/api/users/login` and read
`response.json()["user"]["token"]` with no `try`/`except`; returns the
`Authorization` header value on success, and the escaping exception
(`error`) otherwise. -/
def on_start (loginResp : Response) : Except String String :=
  match loginResp.body with
  | none => .error "JSONDecodeError"
  | some data =>
    match data.asObj with
    | none => .error "TypeError"
    | some fs =>
      match fs.lookup "user" with
      | none => .error "KeyError user"
      | some u =>
        match u.asObj with
        | none => .error "TypeError"
        | some ufs =>
          match ufs.lookup "token" with
          | none => .error "KeyError token"
          | some t => .ok ("Token " ++ pyStr t)

end ConduitUser

/-- The three weighted tasks of the anonymous-reader task set. -/
inductive AnonTask where
  | view_tags : AnonTask
  | browse_articles : AnonTask
  | read_article : AnonTask
deriving Repr, DecidableEq

/-- The `@task(w)` weights of the anonymous-reader task set. -/
def anonWeight : AnonTask → Nat
  | .view_tags => 3
  | .browse_articles => 6
  | .read_article => 2

/-- Locust's weighted task list: each task repeated `weight` times; one
iteration picks uniformly from this list. -/
def anonTaskList : List AnonTask :=
  List.replicate 3 .view_tags ++ List.replicate 6 .browse_articles
    ++ List.replicate 2 .read_article

/-- Selection of the single task run by one iteration, from one uniform
random draw (`random.choice` over the weighted list). -/
def selectAnonTask (draw : Nat) : AnonTask :=
  anonTaskList.getD (draw % anonTaskList.length) .view_tags

/-- Task selected at iteration `n` given the per-iteration stream of
independent uniform draws. -/
def iterSelect (draws : Nat → Nat) (n : Nat) : AnonTask :=
  selectAnonTask (draws n)

/-- `leadsWith n h`: the character list `n` is an initial segment of `h`. -/
def leadsWith : List Char → List Char → Bool
  | [], _ => true
  | _ :: _, [] => false
  | a :: as, b :: bs => a == b && leadsWith as bs

/-- `containsChars n h`: the character list `n` occurs contiguously in `h`
(used to state that a request path does or does not contain a given
substring). -/
def containsChars (needle : List Char) : List Char → Bool
  | [] => needle.isEmpty
  | c :: rest => leadsWith needle (c :: rest) || containsChars needle rest

namespace AnonymousReaderBehavior

/-- One event of an anonymous reader's loop: which weighted task ran and the
response (plus random index for `browse_articles`) it observed. -/
inductive AnonEvent where
  | viewTags : Response → AnonEvent
  | browse : Response → Nat → AnonEvent
  | readArticle : Response → AnonEvent

/-- State transition of a single anonymous-loop event. -/
def anonApply (e : AnonEvent) (s : AnonState) : AnonState :=
  match e with
  | .viewTags resp => (view_tags resp s).state
  | .browse resp pick => (browse_articles resp pick s).state
  | .readArticle resp => (read_article resp s).state

/-- State after a whole sequence of anonymous-loop events. -/
def anonRun (evs : List AnonEvent) (s : AnonState) : AnonState :=
  evs.foldl (fun s e => anonApply e s) s

/-- Whether an event stores a slug in `self.user.article_slug`: only a
`browse_articles` execution with a 200 response whose body parses to a
nonempty article list does. -/
def writesSlug : AnonEvent → Bool
  | .browse resp pick =>
    resp.status == 200 &&
      (match browseParse resp.body pick with
        | .ok (some _) => true
        | _ => false)
  | _ => false

end AnonymousReaderBehavior

theorem outcomeMarks_eq_one (o : StepOutcome) : outcomeMarks o = 1 := by
  cases o <;> rfl

/-- C5: For every single execution of any Behavior Step, exactly one of the
three outcomes success / failure / skipped is produced: each step function
records exactly one `StepOutcome`, and every `StepOutcome` carries exactly
one of the three marks, so no execution records both success and failure. -/
theorem C5_exactly_one_outcome (resp : Response) (pick : Nat)
    (sA : AnonymousReaderBehavior.AnonState)
    (sB : AuthenticatedReaderBehavior.AuthState)
    (sC : ContentCreatorBehavior.CreatorState) :
    outcomeMarks (AnonymousReaderBehavior.view_tags resp sA).outcome = 1
    ∧ outcomeMarks (AnonymousReaderBehavior.browse_articles resp pick sA).outcome = 1
    ∧ outcomeMarks (AnonymousReaderBehavior.read_article resp sA).outcome = 1
    ∧ outcomeMarks (AuthenticatedReaderBehavior.view_feed resp pick sB).outcome = 1
    ∧ outcomeMarks (AuthenticatedReaderBehavior.read_article resp sB).outcome = 1
    ∧ outcomeMarks (AuthenticatedReaderBehavior.browse_all_articles resp sB).outcome = 1
    ∧ outcomeMarks (AuthenticatedReaderBehavior.view_profile resp sB).outcome = 1
    ∧ outcomeMarks (ContentCreatorBehavior.browse_feed resp pick sC).outcome = 1
    ∧ outcomeMarks (ContentCreatorBehavior.create_article resp sC).outcome = 1
    ∧ outcomeMarks (ContentCreatorBehavior.read_own_article resp sC).outcome = 1
    ∧ outcomeMarks (ContentCreatorBehavior.add_comment resp sC).outcome = 1 :=
  ⟨outcomeMarks_eq_one _, outcomeMarks_eq_one _, outcomeMarks_eq_one _,
   outcomeMarks_eq_one _, outcomeMarks_eq_one _, outcomeMarks_eq_one _,
   outcomeMarks_eq_one _, outcomeMarks_eq_one _, outcomeMarks_eq_one _,
   outcomeMarks_eq_one _, outcomeMarks_eq_one _⟩

/-- C7: Under weighted-independent composition with the anonymous weights
(`view_tags` 3, `browse_articles` 6, `read_article` 2), the weighted list
has length Σw = 11, each task occupies exactly its weight among the 11
equally likely draws (so a uniform draw selects task i with probability
wᵢ/Σw), and the task selected at iteration `n` depends only on iteration
`n`'s own random draw — independent of every other iteration. -/
theorem C7_weighted_selection (t : AnonTask) (draws draws' : Nat → Nat)
    (n : Nat) (h : draws n = draws' n) :
    anonTaskList.length
      = anonWeight .view_tags + anonWeight .browse_articles
        + anonWeight .read_article
    ∧ (List.range anonTaskList.length).countP (fun d => selectAnonTask d == t)
      = anonWeight t
    ∧ iterSelect draws n = iterSelect draws' n := by
  refine ⟨rfl, ?_, by simp [iterSelect, h]⟩
  cases t <;> decide

theorem C7_weighted_selection_witness :
    anonTaskList.length
      = anonWeight .view_tags + anonWeight .browse_articles
        + anonWeight .read_article
    ∧ (List.range anonTaskList.length).countP
        (fun d => selectAnonTask d == AnonTask.browse_articles)
      = anonWeight .browse_articles
    ∧ iterSelect (fun _ => 4) 0 = iterSelect (fun _ => 4) 0 :=
  C7_weighted_selection .browse_articles (fun _ => 4) (fun _ => 4) 0 rfl

/-- C8: A successful registration (status 200 or 201) with body
`{"user":{"token":"abc123"}}` merges the credential into Session State:
afterwards the stored token is `"abc123"` (for both the authenticated
reader's and the content creator's setup step; the reader's never reaches
its login fallback in that case). -/
theorem C8_registration_token (loginResp : Response) (u : String) :
    ContentCreatorBehavior.login
        { status := 200
          body := some (Json.obj [("user", Json.obj [("token", Json.str "abc123")])]) }
      = some (Json.str "abc123")
    ∧ ContentCreatorBehavior.login
        { status := 201
          body := some (Json.obj [("user", Json.obj [("token", Json.str "abc123")])]) }
      = some (Json.str "abc123")
    ∧ AuthenticatedReaderBehavior.login
        { status := 200
          body := some (Json.obj [("user", Json.obj [("token", Json.str "abc123")])]) }
        loginResp u
      = (some (Json.str "abc123"), some u)
    ∧ AuthenticatedReaderBehavior.login
        { status := 201
          body := some (Json.obj [("user", Json.obj [("token", Json.str "abc123")])]) }
        loginResp u
      = (some (Json.str "abc123"), some u) := by
  refine ⟨rfl, rfl, ?_, ?_⟩ <;>
    simp [AuthenticatedReaderBehavior.login, loginParseToken, Json.asObj]

/-- C10: The 404 allow-list is not uniform across item-detail reads: with a
404 response, the anonymous and authenticated `read_article` steps and the
`add_comment` step record success, while the sequential workflow's
`read_own_article` step records a failure. -/
theorem C10_nonuniform_404 (resp : Response) (h404 : resp.status = 404)
    (sA : AnonymousReaderBehavior.AnonState)
    (sB : AuthenticatedReaderBehavior.AuthState)
    (sC : ContentCreatorBehavior.CreatorState)
    (hB : tokenFalsy sB.token = false)
    (hC : tokenFalsy sC.token = false)
    (hCr : sC.created_slug.isNone = false) :
    (AnonymousReaderBehavior.read_article resp sA).outcome = .success
    ∧ (AuthenticatedReaderBehavior.read_article resp sB).outcome = .success
    ∧ (ContentCreatorBehavior.add_comment resp sC).outcome = .success
    ∧ (ContentCreatorBehavior.read_own_article resp sC).outcome
      = .failure "Got status code 404" := by
  refine ⟨?_, ?_, ?_, ?_⟩
  all_goals simp [AnonymousReaderBehavior.read_article,
    AuthenticatedReaderBehavior.read_article,
    ContentCreatorBehavior.add_comment,
    ContentCreatorBehavior.read_own_article, h404, hB, hC, hCr]
  rfl

theorem C10_nonuniform_404_witness :
    (AnonymousReaderBehavior.read_article { status := 404, body := none }
        { article_slug := some (Json.str "a") }).outcome = .success
    ∧ (AuthenticatedReaderBehavior.read_article { status := 404, body := none }
        { token := some (Json.str "tok"), username := some "u", article_slug := none }).outcome
      = .success
    ∧ (ContentCreatorBehavior.add_comment { status := 404, body := none }
        { token := some (Json.str "tok"), article_slug := none,
          created_slug := some (Json.str "xyz") }).outcome = .success
    ∧ (ContentCreatorBehavior.read_own_article { status := 404, body := none }
        { token := some (Json.str "tok"), article_slug := none,
          created_slug := some (Json.str "xyz") }).outcome
      = .failure "Got status code 404" :=
  C10_nonuniform_404 { status := 404, body := none } rfl
    { article_slug := some (Json.str "a") }
    { token := some (Json.str "tok"), username := some "u", article_slug := none }
    { token := some (Json.str "tok"), article_slug := none,
      created_slug := some (Json.str "xyz") }
    (by decide) (by decide) (by decide)

theorem anonApply_isSome (e : AnonymousReaderBehavior.AnonEvent)
    (s : AnonymousReaderBehavior.AnonState)
    (h : s.article_slug.isSome = true) :
    (AnonymousReaderBehavior.anonApply e s).article_slug.isSome = true := by
  cases e with
  | viewTags resp => exact h
  | readArticle resp => exact h
  | browse resp pick =>
    simp only [AnonymousReaderBehavior.anonApply,
      AnonymousReaderBehavior.browse_articles]
    split
    · split <;> simp_all
    · exact h

theorem anonApply_no_write (e : AnonymousReaderBehavior.AnonEvent)
    (s : AnonymousReaderBehavior.AnonState)
    (h : AnonymousReaderBehavior.writesSlug e = false) :
    AnonymousReaderBehavior.anonApply e s = s := by
  cases e with
  | viewTags resp => rfl
  | readArticle resp => rfl
  | browse resp pick =>
    simp only [AnonymousReaderBehavior.writesSlug] at h
    simp only [AnonymousReaderBehavior.anonApply,
      AnonymousReaderBehavior.browse_articles]
    split
    case isTrue h200 =>
      rcases hbp : browseParse resp.body pick with e' | v
      · simp [hbp]
      · rcases v with _ | v
        · simp [hbp]
        · exfalso
          simp [hbp, h200] at h
    case isFalse _ => rfl

theorem anonRun_isSome (evs : List AnonymousReaderBehavior.AnonEvent)
    (s : AnonymousReaderBehavior.AnonState)
    (h : s.article_slug.isSome = true) :
    (AnonymousReaderBehavior.anonRun evs s).article_slug.isSome = true := by
  induction evs generalizing s with
  | nil => exact h
  | cons e rest ih => exact ih _ (anonApply_isSome e s h)

theorem anonRun_no_write (evs : List AnonymousReaderBehavior.AnonEvent)
    (s : AnonymousReaderBehavior.AnonState)
    (h : ∀ e ∈ evs, AnonymousReaderBehavior.writesSlug e = false) :
    AnonymousReaderBehavior.anonRun evs s = s := by
  induction evs generalizing s with
  | nil => rfl
  | cons e rest ih =>
    have h1 : AnonymousReaderBehavior.writesSlug e = false := h e (by simp)
    have h2 : ∀ e' ∈ rest, AnonymousReaderBehavior.writesSlug e' = false :=
      fun e' he' => h e' (by simp [he'])
    calc AnonymousReaderBehavior.anonRun (e :: rest) s
        = AnonymousReaderBehavior.anonRun rest (AnonymousReaderBehavior.anonApply e s) := rfl
      _ = AnonymousReaderBehavior.anonRun rest s := by rw [anonApply_no_write e s h1]
      _ = s := ih s h2

/-- C9: In the anonymous-reader archetype, `on_start` sets the
content-identifier attribute to `None`, so the `hasattr` presence check in
`read_article` passes after any sequence of loop events; and as long as no
successful article-list response has populated the attribute,
`read_article` requests the path `/api/articles/None` rather than using the
`"sample-article"` fallback. -/
theorem C9_on_start_defeats_fallback
    (evs : List AnonymousReaderBehavior.AnonEvent)
    (s0 : AnonymousReaderBehavior.AnonState) (resp : Response) :
    (AnonymousReaderBehavior.anonRun evs
        (AnonymousReaderBehavior.on_start s0)).article_slug.isSome = true
    ∧ ((∀ e ∈ evs, AnonymousReaderBehavior.writesSlug e = false) →
        (AnonymousReaderBehavior.read_article resp
            (AnonymousReaderBehavior.anonRun evs
              (AnonymousReaderBehavior.on_start s0))).request
          = some { method := "GET", path := "/api/articles/None" }) := by
  constructor
  · exact anonRun_isSome evs _ rfl
  · intro h
    rw [anonRun_no_write evs _ h]
    rfl

theorem C9_on_start_defeats_fallback_witness :
    (AnonymousReaderBehavior.anonRun []
        (AnonymousReaderBehavior.on_start { article_slug := none })).article_slug.isSome
      = true
    ∧ (AnonymousReaderBehavior.read_article { status := 200, body := none }
        (AnonymousReaderBehavior.anonRun []
          (AnonymousReaderBehavior.on_start { article_slug := none }))).request
      = some { method := "GET", path := "/api/articles/None" } :=
  ⟨(C9_on_start_defeats_fallback [] { article_slug := none }
      { status := 200, body := none }).1,
   (C9_on_start_defeats_fallback [] { article_slug := none }
      { status := 200, body := none }).2 (by simp)⟩

/-- C1 counterexample: right after `on_start` — Session State empty, no
content identifier discovered — the anonymous `read_article` step issues
the path `/api/articles/None`, which does not contain the placeholder
`sample-article`, refuting the claim that the placeholder is used. -/
theorem C1_placeholder_counterexample :
    (AnonymousReaderBehavior.read_article { status := 404, body := none }
        (AnonymousReaderBehavior.on_start { article_slug := none })).request
      = some { method := "GET", path := "/api/articles/None" }
    ∧ containsChars "sample-article".toList "/api/articles/None".toList = false :=
  ⟨rfl, by decide⟩

/-- C1 (amended): When the weighted `read_article` step runs on an empty
Session State, the anonymous variant — whose `on_start` pre-sets the
attribute to `None` — requests `/api/articles/None` (the placeholder does
not appear in the path) and still classifies a 404 response as success;
only the authenticated variant, whose `on_start` leaves the attribute
unset, uses the `"sample-article"` placeholder path. -/
theorem C1_empty_state_read (s0 : AnonymousReaderBehavior.AnonState)
    (resp : Response) (h404 : resp.status = 404)
    (sB : AuthenticatedReaderBehavior.AuthState)
    (hB : tokenFalsy sB.token = false) (hBs : sB.article_slug = none) :
    (AnonymousReaderBehavior.read_article resp
        (AnonymousReaderBehavior.on_start s0)).request
      = some { method := "GET", path := "/api/articles/None" }
    ∧ (AnonymousReaderBehavior.read_article resp
        (AnonymousReaderBehavior.on_start s0)).outcome = .success
    ∧ containsChars "sample-article".toList "/api/articles/None".toList = false
    ∧ (AuthenticatedReaderBehavior.read_article resp sB).request
      = some { method := "GET", path := "/api/articles/sample-article" } := by
  refine ⟨rfl, ?_, by decide, ?_⟩
  · simp [AnonymousReaderBehavior.read_article, h404]
  · simp [AuthenticatedReaderBehavior.read_article, hB, hBs, slugOrSample]

theorem C1_empty_state_read_witness :
    (AnonymousReaderBehavior.read_article { status := 404, body := none }
        (AnonymousReaderBehavior.on_start { article_slug := none })).request
      = some { method := "GET", path := "/api/articles/None" }
    ∧ (AnonymousReaderBehavior.read_article { status := 404, body := none }
        (AnonymousReaderBehavior.on_start { article_slug := none })).outcome
      = .success
    ∧ containsChars "sample-article".toList "/api/articles/None".toList = false
    ∧ (AuthenticatedReaderBehavior.read_article { status := 404, body := none }
        { token := some (Json.str "tok"), username := some "u",
          article_slug := none }).request
      = some { method := "GET", path := "/api/articles/sample-article" } :=
  C1_empty_state_read { article_slug := none } { status := 404, body := none }
    rfl
    { token := some (Json.str "tok"), username := some "u", article_slug := none }
    (by decide) rfl

/-- C3 counterexample: the claim quantifies over every Virtual User, but the
`ConduitUser` of `user_flow/locustfile.py` reads
`response.json()["user"]["token"]` with no exception handling: on a failed
login whose body is the usual `{"errors": ...}` object, `on_start` raises
(`KeyError`), so the loop does not start and the claim fails. -/
theorem C3_conduit_counterexample :
    ConduitUser.on_start
        { status := 403
          body := some (Json.obj
            [("errors", Json.obj [("body", Json.arr [Json.str "invalid"])])]) }
      = .error "KeyError user" := rfl

/-- C3 (amended): For the behavior classes of
`load-testing/locust/locustfile.py` the claim holds: a failed setup leaves
the token `None` (the content creator's `login` stores no token for any
non-2xx registration, and the authenticated reader's additionally needs its
login fallback to fail), the loop still runs, and every auth-dependent step
thereafter issues no request and records neither success nor failure,
leaving the state unchanged.  The `user_flow` `ConduitUser`, however,
raises an unhandled exception from `on_start` when login returns no token. -/
theorem C3_setup_failure_skips (registerResp loginResp : Response)
    (u : String)
    (hreg : registerResp.status ≠ 200 ∧ registerResp.status ≠ 201)
    (hlog : loginResp.status ≠ 200)
    (resp : Response) (pick : Nat)
    (sB : AuthenticatedReaderBehavior.AuthState)
    (sC : ContentCreatorBehavior.CreatorState)
    (hB : tokenFalsy sB.token = true) (hC : tokenFalsy sC.token = true) :
    ContentCreatorBehavior.login registerResp = none
    ∧ AuthenticatedReaderBehavior.login registerResp loginResp u = (none, none)
    ∧ AuthenticatedReaderBehavior.view_feed resp pick sB
      = { request := none, outcome := .skipped, state := sB }
    ∧ AuthenticatedReaderBehavior.read_article resp sB
      = { request := none, outcome := .skipped, state := sB }
    ∧ AuthenticatedReaderBehavior.browse_all_articles resp sB
      = { request := none, outcome := .skipped, state := sB }
    ∧ AuthenticatedReaderBehavior.view_profile resp sB
      = { request := none, outcome := .skipped, state := sB }
    ∧ ContentCreatorBehavior.browse_feed resp pick sC
      = { request := none, outcome := .skipped, state := sC }
    ∧ ContentCreatorBehavior.create_article resp sC
      = { request := none, outcome := .skipped, state := sC }
    ∧ ContentCreatorBehavior.read_own_article resp sC
      = { request := none, outcome := .skipped, state := sC }
    ∧ ContentCreatorBehavior.add_comment resp sC
      = { request := none, outcome := .skipped, state := sC } := by
  refine ⟨?_, ?_, ?_, ?_, ?_, ?_, ?_, ?_, ?_, ?_⟩
  · simp [ContentCreatorBehavior.login, hreg.1, hreg.2]
  · simp [AuthenticatedReaderBehavior.login, hreg.1, hreg.2, hlog]
  · simp [AuthenticatedReaderBehavior.view_feed, hB]
  · simp [AuthenticatedReaderBehavior.read_article, hB]
  · simp [AuthenticatedReaderBehavior.browse_all_articles, hB]
  · simp [AuthenticatedReaderBehavior.view_profile, hB]
  · simp [ContentCreatorBehavior.browse_feed, hC]
  · simp [ContentCreatorBehavior.create_article, hC]
  · simp [ContentCreatorBehavior.read_own_article, hC]
  · simp [ContentCreatorBehavior.add_comment, hC]

theorem C3_setup_failure_skips_witness :
    ContentCreatorBehavior.login { status := 500, body := none } = none
    ∧ AuthenticatedReaderBehavior.login { status := 500, body := none }
        { status := 422, body := none } "reader_1000" = (none, none)
    ∧ AuthenticatedReaderBehavior.view_feed { status := 200, body := none } 0
        { token := none, username := none, article_slug := none }
      = { request := none, outcome := .skipped,
          state := { token := none, username := none, article_slug := none } }
    ∧ AuthenticatedReaderBehavior.read_article { status := 200, body := none }
        { token := none, username := none, article_slug := none }
      = { request := none, outcome := .skipped,
          state := { token := none, username := none, article_slug := none } }
    ∧ AuthenticatedReaderBehavior.browse_all_articles { status := 200, body := none }
        { token := none, username := none, article_slug := none }
      = { request := none, outcome := .skipped,
          state := { token := none, username := none, article_slug := none } }
    ∧ AuthenticatedReaderBehavior.view_profile { status := 200, body := none }
        { token := none, username := none, article_slug := none }
      = { request := none, outcome := .skipped,
          state := { token := none, username := none, article_slug := none } }
    ∧ ContentCreatorBehavior.browse_feed { status := 200, body := none } 0
        { token := none, article_slug := none, created_slug := none }
      = { request := none, outcome := .skipped,
          state := { token := none, article_slug := none, created_slug := none } }
    ∧ ContentCreatorBehavior.create_article { status := 200, body := none }
        { token := none, article_slug := none, created_slug := none }
      = { request := none, outcome := .skipped,
          state := { token := none, article_slug := none, created_slug := none } }
    ∧ ContentCreatorBehavior.read_own_article { status := 200, body := none }
        { token := none, article_slug := none, created_slug := none }
      = { request := none, outcome := .skipped,
          state := { token := none, article_slug := none, created_slug := none } }
    ∧ ContentCreatorBehavior.add_comment { status := 200, body := none }
        { token := none, article_slug := none, created_slug := none }
      = { request := none, outcome := .skipped,
          state := { token := none, article_slug := none, created_slug := none } } :=
  C3_setup_failure_skips { status := 500, body := none }
    { status := 422, body := none } "reader_1000"
    (by decide) (by decide) { status := 200, body := none } 0
    { token := none, username := none, article_slug := none }
    { token := none, article_slug := none, created_slug := none }
    rfl rfl

/-- C4: On a parse failure with an otherwise in-allow-list status, the step
records a failure with the parse-error detail and leaves the Session State
completely unchanged (shown for the anonymous `browse_articles` step and the
creator's `create_article` step); the exception is caught inside the step,
so the Virtual User loop continues. -/
theorem C4_parse_failure (resp resp2 : Response) (pick : Nat)
    (sA : AnonymousReaderBehavior.AnonState)
    (sC : ContentCreatorBehavior.CreatorState) (e e2 : String)
    (h1 : resp.status = 200) (h2 : browseParse resp.body pick = .error e)
    (h3 : resp2.status = 200 ∨ resp2.status = 201)
    (h4 : tokenFalsy sC.token = false)
    (h5 : createParse resp2.body = .error e2) :
    AnonymousReaderBehavior.browse_articles resp pick sA
      = { request := some { method := "GET", path := "/api/articles" }
          outcome := .failure ("Failed to parse response: " ++ e)
          state := sA }
    ∧ ContentCreatorBehavior.create_article resp2 sC
      = { request := some { method := "POST", path := "/api/articles" }
          outcome := .failure "Failed to parse created article"
          state := sC } := by
  constructor
  · simp [AnonymousReaderBehavior.browse_articles, h1, h2]
  · simp [ContentCreatorBehavior.create_article, h3, h4, h5]

theorem C4_parse_failure_witness :
    AnonymousReaderBehavior.browse_articles { status := 200, body := none } 0
        { article_slug := none }
      = { request := some { method := "GET", path := "/api/articles" }
          outcome := .failure ("Failed to parse response: " ++ "invalid json body")
          state := { article_slug := none } }
    ∧ ContentCreatorBehavior.create_article { status := 201, body := none }
        { token := some (Json.str "tok"), article_slug := none, created_slug := none }
      = { request := some { method := "POST", path := "/api/articles" }
          outcome := .failure "Failed to parse created article"
          state := { token := some (Json.str "tok"), article_slug := none,
                     created_slug := none } } :=
  C4_parse_failure { status := 200, body := none } { status := 201, body := none }
    0 { article_slug := none }
    { token := some (Json.str "tok"), article_slug := none, created_slug := none }
    "invalid json body" "invalid json body"
    rfl rfl (Or.inr rfl) (by decide) rfl

theorem browse_feed_token (resp : Response) (pick : Nat)
    (s : ContentCreatorBehavior.CreatorState) :
    (ContentCreatorBehavior.browse_feed resp pick s).state.token = s.token := by
  unfold ContentCreatorBehavior.browse_feed
  split
  · rfl
  · dsimp only
    split
    · rcases hbp : browseParse resp.body pick with e' | v
      · simp [hbp]
      · rcases v with _ | v <;> simp [hbp]
    · rfl

theorem browse_feed_created (resp : Response) (pick : Nat)
    (s : ContentCreatorBehavior.CreatorState) :
    (ContentCreatorBehavior.browse_feed resp pick s).state.created_slug
      = s.created_slug := by
  unfold ContentCreatorBehavior.browse_feed
  split
  · rfl
  · dsimp only
    split
    · rcases hbp : browseParse resp.body pick with e' | v
      · simp [hbp]
      · rcases v with _ | v <;> simp [hbp]
    · rfl

theorem read_own_article_state (resp : Response)
    (s : ContentCreatorBehavior.CreatorState) :
    (ContentCreatorBehavior.read_own_article resp s).state = s := by
  simp only [ContentCreatorBehavior.read_own_article]
  split <;> rfl

/-- C6: In one iteration of the sequential workflow the four steps execute
exactly once each in declared order; each step runs on the session state
produced by the strictly earlier steps of the same iteration (so a state
fragment written by step j is visible to every later step and to no earlier
one): step 1 reads the iteration's initial state, the `created_slug` written
by step 2 is absent before step 2 and visible to steps 3 and 4. -/
theorem C6_sequential_order (env : ContentCreatorBehavior.IterEnv)
    (s0 : ContentCreatorBehavior.CreatorState) (v : Json)
    (htok : tokenFalsy s0.token = false)
    (hstatus : env.createResp.status = 200 ∨ env.createResp.status = 201)
    (hparse : createParse env.createResp.body = .ok v) :
    (ContentCreatorBehavior.runIteration env s0).1.map (fun x => x.1)
      = ["browse_feed", "create_article", "read_own_article", "add_comment"]
    ∧ (ContentCreatorBehavior.runIteration env s0).1
      = [("browse_feed",
          (ContentCreatorBehavior.browse_feed env.feedResp env.feedPick s0).request,
          (ContentCreatorBehavior.browse_feed env.feedResp env.feedPick s0).outcome),
         ("create_article",
          (ContentCreatorBehavior.create_article env.createResp
            (ContentCreatorBehavior.afterStep1 env s0)).request,
          (ContentCreatorBehavior.create_article env.createResp
            (ContentCreatorBehavior.afterStep1 env s0)).outcome),
         ("read_own_article",
          (ContentCreatorBehavior.read_own_article env.readResp
            (ContentCreatorBehavior.afterStep2 env s0)).request,
          (ContentCreatorBehavior.read_own_article env.readResp
            (ContentCreatorBehavior.afterStep2 env s0)).outcome),
         ("add_comment",
          (ContentCreatorBehavior.add_comment env.commentResp
            (ContentCreatorBehavior.afterStep3 env s0)).request,
          (ContentCreatorBehavior.add_comment env.commentResp
            (ContentCreatorBehavior.afterStep3 env s0)).outcome)]
    ∧ (ContentCreatorBehavior.runIteration env s0).2
      = (ContentCreatorBehavior.add_comment env.commentResp
          (ContentCreatorBehavior.afterStep3 env s0)).state
    ∧ (ContentCreatorBehavior.afterStep1 env s0).created_slug = s0.created_slug
    ∧ (ContentCreatorBehavior.afterStep2 env s0).created_slug = some v
    ∧ (ContentCreatorBehavior.afterStep3 env s0).created_slug = some v := by
  have ht1 : tokenFalsy (ContentCreatorBehavior.afterStep1 env s0).token = false := by
    rw [ContentCreatorBehavior.afterStep1, browse_feed_token]
    exact htok
  have hc2 : (ContentCreatorBehavior.afterStep2 env s0).created_slug = some v := by
    rw [ContentCreatorBehavior.afterStep2]
    simp [ContentCreatorBehavior.create_article, ht1, hstatus, hparse]
  refine ⟨rfl, rfl, rfl, ?_, hc2, ?_⟩
  · rw [ContentCreatorBehavior.afterStep1]
    exact browse_feed_created env.feedResp env.feedPick s0
  · rw [ContentCreatorBehavior.afterStep3, read_own_article_state]
    exact hc2

theorem C6_sequential_order_witness :
    (ContentCreatorBehavior.afterStep2
        { feedResp :=
            { status := 200
              body := some (Json.obj [("articles", Json.arr [])]) }
          feedPick := 0
          createResp :=
            { status := 201
              body := some (Json.obj
                  [("article", Json.obj [("slug", Json.str "xyz")])]) }
          readResp := { status := 200, body := none }
          commentResp := { status := 201, body := none } }
        { token := some (Json.str "tok"), article_slug := none,
          created_slug := none }).created_slug = some (Json.str "xyz")
    ∧ (ContentCreatorBehavior.afterStep3
        { feedResp :=
            { status := 200
              body := some (Json.obj [("articles", Json.arr [])]) }
          feedPick := 0
          createResp :=
            { status := 201
              body := some (Json.obj
                  [("article", Json.obj [("slug", Json.str "xyz")])]) }
          readResp := { status := 200, body := none }
          commentResp := { status := 201, body := none } }
        { token := some (Json.str "tok"), article_slug := none,
          created_slug := none }).created_slug = some (Json.str "xyz") :=
  ⟨(C6_sequential_order
      { feedResp :=
          { status := 200
            body := some (Json.obj [("articles", Json.arr [])]) }
        feedPick := 0
        createResp :=
          { status := 201
            body := some (Json.obj
                [("article", Json.obj [("slug", Json.str "xyz")])]) }
        readResp := { status := 200, body := none }
        commentResp := { status := 201, body := none } }
      { token := some (Json.str "tok"), article_slug := none,
        created_slug := none }
      (Json.str "xyz") (by decide) (Or.inr rfl) rfl).2.2.2.2.1,
   (C6_sequential_order
      { feedResp :=
          { status := 200
            body := some (Json.obj [("articles", Json.arr [])]) }
        feedPick := 0
        createResp :=
          { status := 201
            body := some (Json.obj
                [("article", Json.obj [("slug", Json.str "xyz")])]) }
        readResp := { status := 200, body := none }
        commentResp := { status := 201, body := none } }
      { token := some (Json.str "tok"), article_slug := none,
        created_slug := none }
      (Json.str "xyz") (by decide) (Or.inr rfl) rfl).2.2.2.2.2⟩

/-- C2 counterexample: a sequential iteration in which the feed response
lists slug `feed-slug` and the create step succeeds returning slug `xyz`
(step 3 demonstrably reads `/api/articles/xyz`): the comment step targets
`/api/articles/feed-slug/comments` — the previously seen list identifier,
not the created one — refuting the claim. -/
theorem C2_feed_slug_counterexample :
    (ContentCreatorBehavior.runIteration
        { feedResp :=
            { status := 200
              body := some (Json.obj [("articles",
                  Json.arr [Json.obj [("slug", Json.str "feed-slug")]])]) }
          feedPick := 0
          createResp :=
            { status := 201
              body := some (Json.obj
                  [("article", Json.obj [("slug", Json.str "xyz")])]) }
          readResp := { status := 200, body := none }
          commentResp := { status := 201, body := none } }
        { token := some (Json.str "tok"), article_slug := none,
          created_slug := none }).1.map (fun x => x.2.1)
      = [some { method := "GET", path := "/api/articles/feed" },
         some { method := "POST", path := "/api/articles" },
         some { method := "GET", path := "/api/articles/xyz" },
         some { method := "POST", path := "/api/articles/feed-slug/comments" }]
    ∧ (some { method := "POST", path := "/api/articles/feed-slug/comments" }
        : Option Request)
      ≠ some { method := "POST", path := "/api/articles/xyz/comments" } :=
  ⟨rfl, by decide⟩

/-- C2 (amended): The comment step resolves its target as the last
feed-seen identifier when one was captured, and targets the identifier
created in the same iteration only when no feed identifier was ever
captured (`getattr(self, 'article_slug', getattr(self, 'created_slug',
'sample-article'))`). -/
theorem C2_comment_target (resp : Response)
    (s : ContentCreatorBehavior.CreatorState) (v w : Json)
    (htok : tokenFalsy s.token = false) :
    (s.article_slug = none → s.created_slug = some v →
      (ContentCreatorBehavior.add_comment resp s).request
        = some { method := "POST",
                 path := "/api/articles/" ++ pyStr v ++ "/comments" })
    ∧ (s.article_slug = some w →
      (ContentCreatorBehavior.add_comment resp s).request
        = some { method := "POST",
                 path := "/api/articles/" ++ pyStr w ++ "/comments" }) := by
  constructor
  · intro h1 h2
    simp [ContentCreatorBehavior.add_comment,
      ContentCreatorBehavior.comment_slug, htok, h1, h2]
  · intro h1
    simp [ContentCreatorBehavior.add_comment,
      ContentCreatorBehavior.comment_slug, htok, h1]

theorem C2_comment_target_witness :
    (ContentCreatorBehavior.add_comment { status := 201, body := none }
        { token := some (Json.str "tok"), article_slug := none,
          created_slug := some (Json.str "xyz") }).request
      = some { method := "POST",
               path := "/api/articles/" ++ pyStr (Json.str "xyz") ++ "/comments" }
    ∧ (ContentCreatorBehavior.add_comment { status := 201, body := none }
        { token := some (Json.str "tok"),
          article_slug := some (Json.str "feed-slug"),
          created_slug := some (Json.str "xyz") }).request
      = some { method := "POST",
               path := "/api/articles/" ++ pyStr (Json.str "feed-slug")
                 ++ "/comments" } :=
  ⟨(C2_comment_target { status := 201, body := none }
      { token := some (Json.str "tok"), article_slug := none,
        created_slug := some (Json.str "xyz") }
      (Json.str "xyz") (Json.str "w") (by decide)).1 rfl rfl,
   (C2_comment_target { status := 201, body := none }
      { token := some (Json.str "tok"),
        article_slug := some (Json.str "feed-slug"),
        created_slug := some (Json.str "xyz") }
      (Json.str "v") (Json.str "feed-slug") (by decide)).2 rfl⟩

end LoadTest
